import Mathlib

/-!
Verification of the GWMP (gateway message protocol) codec implemented in
`wan.py` of python-lorawan.  The codec is Python 2 code; this file embeds it
shallowly: Python 2 `str` values (which double as byte strings) are lists of
character codes (`List Nat`), Python ints are `Int`, Python floats are
rationals, JSON-parsed data is the inductive `PyVal`, and every fallible
operation returns `Except PyErr`.
-/

/-- Python exception kinds that can escape the codec.  `DecodeError` and
`UnsupportedMethod` are the package's own exception classes (their module is
not part of the sources; modelled from the spec: two dedicated exception
types surfaced by decode).  The other constructors model Python built-in
exceptions.  Exception message strings are not tracked. -/
inductive PyErr where
  | DecodeError
  | UnsupportedMethod
  | ValueError
  | TypeError
  | KeyError
  | IndexError
  | AttributeError
  | StructError
  deriving DecidableEq, Repr

/-- Python values as manipulated by the codec.  Python 2 `str` is a list of
character codes.  Floats are modelled by rationals.  Dicts are
insertion-ordered association lists: Python 2's `json.loads` yields plain
dicts whose `keys()` order is a hash order in general, but the codec only
ever inspects `keys()[0]` of objects that, on every path exercised here,
have a single key, for which insertion order is the order. -/
inductive PyVal where
  | none
  | bool (b : Bool)
  | int (n : Int)
  | float (q : Rat)
  | str (s : List Nat)
  | list (xs : List PyVal)
  | dict (kvs : List (List Nat × PyVal))

/-! ## Base64 (model of Python 2 `base64.b64encode` / `base64.b64decode`) -/

/-- Character of the standard base64 alphabet for a 6-bit value. -/
def b64char (n : Nat) : Nat :=
  if n < 26 then 65 + n
  else if n < 52 then 97 + (n - 26)
  else if n < 62 then 48 + (n - 52)
  else if n = 62 then 43
  else 47

/-- Membership in the standard base64 alphabet (excluding the pad `=`). -/
def isB64Char (c : Nat) : Bool :=
  (65 ≤ c && c ≤ 90) || (97 ≤ c && c ≤ 122) || (48 ≤ c && c ≤ 57) || c == 43 || c == 47

/-- Six-bit value of a base64 alphabet character. -/
def b64val (c : Nat) : Nat :=
  if 65 ≤ c ∧ c ≤ 90 then c - 65
  else if 97 ≤ c ∧ c ≤ 122 then c - 97 + 26
  else if 48 ≤ c ∧ c ≤ 57 then c - 48 + 52
  else if c = 43 then 62
  else 63

/-- Models `base64.b64encode`: bytes are grouped in threes; a final group of
one byte yields two characters plus `==` (61 is the code of `=`), a final
group of two bytes yields three characters plus `=`. -/
def b64encode : List Nat → List Nat
  | [] => []
  | [a] => [b64char (a / 4), b64char (a % 4 * 16), 61, 61]
  | [a, b] => [b64char (a / 4), b64char (a % 4 * 16 + b / 16), b64char (b % 16 * 4), 61]
  | a :: b :: c :: rest =>
      b64char (a / 4) :: b64char (a % 4 * 16 + b / 16) ::
        b64char (b % 16 * 4 + c / 64) :: b64char (c % 64) :: b64encode rest

/-- Decodes groups of four base64 characters into bytes; a pad character
(61) ends the data, as in `binascii.a2b_base64`.  Yields `Option.none` on a
group that is not decodable. -/
def b64quads : List Nat → Option (List Nat)
  | [] => some []
  | a :: b :: c :: d :: rest =>
      if a = 61 ∨ b = 61 then some []
      else if c = 61 then some [b64val a * 4 + b64val b / 16]
      else if d = 61 then
        some [b64val a * 4 + b64val b / 16, b64val b % 16 * 16 + b64val c / 4]
      else
        match b64quads rest with
        | some tail =>
            some ((b64val a * 4 + b64val b / 16) :: (b64val b % 16 * 16 + b64val c / 4) ::
              (b64val c % 4 * 64 + b64val d) :: tail)
        | Option.none => Option.none
  | _ => Option.none

/-- Models Python 2 `base64.b64decode` on a byte string: characters outside
the alphabet and the pad are discarded, a remaining length not divisible by
four raises (Python 2 signals incorrect padding with `TypeError`), otherwise
quadruples of characters decode to bytes. -/
def b64decode (s : List Nat) : Except PyErr (List Nat) :=
  let t := s.filter (fun c => isB64Char c || c == 61)
  if t.length % 4 ≠ 0 then .error .TypeError
  else
    match b64quads t with
    | some bs => .ok bs
    | Option.none => .error .TypeError

/-! ## Python sequence slicing and the Txpk record -/

/-- Python slice `s[-n:]` on a list (for `n` larger than the length it is the
whole list, matching Python). -/
def pyTailSlice (n : Nat) (s : List Nat) : List Nat := s.drop (s.length - n)

/-- Python slice `s[:-n]` on a list. -/
def pyDropTail (n : Nat) (s : List Nat) : List Nat := s.take (s.length - n)

/-- Padding removal performed by `Txpk.__init__`: the source tests
`self.data[-2:] == '=='` and then `self.data[-1:] == '='` and drops the
matched characters. -/
def stripB64Pad (e : List Nat) : List Nat :=
  if pyTailSlice 2 e = [61, 61] then pyDropTail 2 e
  else if pyTailSlice 1 e = [61] then pyDropTail 1 e
  else e

/-- The Txpk (downstream transmit command) record, as left by
`Txpk.__init__`: `size` is always assigned by the constructor (the byte
length of the raw data, or 0), `data` holds the base64 text with trailing
padding stripped. -/
structure Txpk where
  imme : Option Bool
  tmst : Option Int
  time : Option (List Nat)
  freq : Option Rat
  rfch : Option Int
  powe : Option Int
  modu : Option (List Nat)
  datr : Option (List Nat)
  codr : Option (List Nat)
  ipol : Option Bool
  size : Int
  data : Option (List Nat)
  ncrc : Option Bool

/-- Models `Txpk.__init__`.  When raw `data` bytes are supplied the
constructor sets `size` to their count, base64-encodes them and strips the
trailing pad characters; otherwise it sets `size` to 0.  The `size` argument
is overwritten on both paths, exactly as in the source. -/
def Txpk.init (imme : Option Bool) (tmst : Option Int) (time : Option (List Nat))
    (freq : Option Rat) (rfch powe : Option Int) (modu datr codr : Option (List Nat))
    (ipol : Option Bool) (size : Option Int) (data : Option (List Nat))
    (ncrc : Option Bool) : Txpk :=
  match data with
  | some d =>
      { imme := imme, tmst := tmst, time := time, freq := freq, rfch := rfch, powe := powe,
        modu := modu, datr := datr, codr := codr, ipol := ipol,
        size := (d.length : Int), data := some (stripB64Pad (b64encode d)), ncrc := ncrc }
  | Option.none =>
      { imme := imme, tmst := tmst, time := time, freq := freq, rfch := rfch, powe := powe,
        modu := modu, datr := datr, codr := codr, ipol := ipol,
        size := 0, data := Option.none, ncrc := ncrc }


/-! ## JSON key names (as character-code lists) -/

/-- Character codes of the key `time`. -/
def kTime : List Nat := [116, 105, 109, 101]

/-- Character codes of the key `lati`. -/
def kLati : List Nat := [108, 97, 116, 105]

/-- Character codes of the key `long`. -/
def kLong : List Nat := [108, 111, 110, 103]

/-- Character codes of the key `alti`. -/
def kAlti : List Nat := [97, 108, 116, 105]

/-- Character codes of the key `rxnb`. -/
def kRxnb : List Nat := [114, 120, 110, 98]

/-- Character codes of the key `rxok`. -/
def kRxok : List Nat := [114, 120, 111, 107]

/-- Character codes of the key `rwfw`. -/
def kRwfw : List Nat := [114, 119, 102, 119]

/-- Character codes of the key `ackr`. -/
def kAckr : List Nat := [97, 99, 107, 114]

/-- Character codes of the key `dwnb`. -/
def kDwnb : List Nat := [100, 119, 110, 98]

/-- Character codes of the key `txnb`. -/
def kTxnb : List Nat := [116, 120, 110, 98]

/-- Character codes of the key `tmst`. -/
def kTmst : List Nat := [116, 109, 115, 116]

/-- Character codes of the key `freq`. -/
def kFreq : List Nat := [102, 114, 101, 113]

/-- Character codes of the key `chan`. -/
def kChan : List Nat := [99, 104, 97, 110]

/-- Character codes of the key `rfch`. -/
def kRfch : List Nat := [114, 102, 99, 104]

/-- Character codes of the key `stat`. -/
def kStat : List Nat := [115, 116, 97, 116]

/-- Character codes of the key `modu`. -/
def kModu : List Nat := [109, 111, 100, 117]

/-- Character codes of the key `datr`. -/
def kDatr : List Nat := [100, 97, 116, 114]

/-- Character codes of the key `codr`. -/
def kCodr : List Nat := [99, 111, 100, 114]

/-- Character codes of the key `rssi`. -/
def kRssi : List Nat := [114, 115, 115, 105]

/-- Character codes of the key `lsnr`. -/
def kLsnr : List Nat := [108, 115, 110, 114]

/-- Character codes of the key `data`. -/
def kData : List Nat := [100, 97, 116, 97]

/-- Character codes of the key `size`. -/
def kSize : List Nat := [115, 105, 122, 101]

/-- Character codes of the key `rxpk`. -/
def kRxpk : List Nat := [114, 120, 112, 107]

/-- Character codes of the key `txpk`. -/
def kTxpk : List Nat := [116, 120, 112, 107]

/-- Character codes of the key `imme`. -/
def kImme : List Nat := [105, 109, 109, 101]

/-- Character codes of the key `powe`. -/
def kPowe : List Nat := [112, 111, 119, 101]

/-- Character codes of the key `ipol`. -/
def kIpol : List Nat := [105, 112, 111, 108]

/-- Character codes of the key `ncrc`. -/
def kNcrc : List Nat := [110, 99, 114, 99]

/-! ## Python primitive operations -/

/-- Decimal digit test. -/
def isDigit (c : Nat) : Bool := 48 ≤ c && c ≤ 57

/-- Numeric value of a digit string (digits already validated). -/
def digitsToNat (l : List Nat) : Nat := l.foldl (fun a c => a * 10 + (c - 48)) 0

/-- Python whitespace (as stripped by `int()` / `float()`). -/
def isPyWs (c : Nat) : Bool := c == 32 || c == 9 || c == 10 || c == 13 || c == 11 || c == 12

/-- Strips whitespace from both ends. -/
def stripWs (s : List Nat) : List Nat :=
  ((s.dropWhile isPyWs).reverse.dropWhile isPyWs).reverse

/-- Digit-run parser: all characters must be digits and there must be at
least one. -/
def parseDigits (l : List Nat) : Option Nat :=
  if !l.isEmpty && l.all isDigit then some (digitsToNat l) else Option.none

/-- Models `int()` applied to a Python 2 string: surrounding whitespace is
ignored, an optional sign precedes a non-empty run of decimal digits;
anything else fails. -/
def parseIntStr (s : List Nat) : Option Int :=
  match stripWs s with
  | 43 :: rest => (parseDigits rest).map (fun n => (n : Int))
  | 45 :: rest => (parseDigits rest).map (fun n => -(n : Int))
  | rest => (parseDigits rest).map (fun n => (n : Int))

/-- Models the Python 2 `int()` coercion as used by the codec: ints pass
through, booleans become 0/1, floats truncate toward zero, numeric strings
parse, anything else raises (`ValueError` for a non-numeric string,
`TypeError` for a non-number non-string). -/
def pyInt : PyVal → Except PyErr Int
  | .int n => .ok n
  | .bool b => .ok (if b then 1 else 0)
  | .float q => .ok (if q < 0 then -((-q).floor) else q.floor)
  | .str s =>
      match parseIntStr s with
      | some n => .ok n
      | Option.none => .error .ValueError
  | _ => .error .TypeError

/-- Splits a list at the first occurrence of `c`, if any. -/
def splitFirst (c : Nat) : List Nat → Option (List Nat × List Nat)
  | [] => Option.none
  | x :: r =>
      if x = c then some ([], r)
      else (splitFirst c r).map (fun p => (x :: p.1, p.2))

/-- Models `float()` applied to a Python 2 string: whitespace-stripped
optional sign, decimal digits with an optional fractional part and an
optional decimal exponent.  (The special texts `inf` and `nan` are not
modelled; no claim depends on them.) -/
def parseFloatStr (s : List Nat) : Option Rat :=
  let t := stripWs s
  let sgnu : Rat × List Nat :=
    match t with
    | 43 :: r => (1, r)
    | 45 :: r => (-1, r)
    | r => (1, r)
  let mantex : List Nat × Option (List Nat) :=
    match splitFirst 101 sgnu.2 with
    | some p => (p.1, some p.2)
    | Option.none =>
        match splitFirst 69 sgnu.2 with
        | some p => (p.1, some p.2)
        | Option.none => (sgnu.2, Option.none)
  let mantVal : Option Rat :=
    match splitFirst 46 mantex.1 with
    | some p =>
        if (p.1.isEmpty && p.2.isEmpty) || !p.1.all isDigit || !p.2.all isDigit then Option.none
        else some ((digitsToNat p.1 : Rat) + (digitsToNat p.2 : Rat) / ((10 : Rat) ^ p.2.length))
    | Option.none =>
        if !mantex.1.isEmpty && mantex.1.all isDigit then some (digitsToNat mantex.1 : Rat)
        else Option.none
  let expVal : Option Int :=
    match mantex.2 with
    | Option.none => some 0
    | some e =>
        match e with
        | 43 :: r => (parseDigits r).map (fun n => (n : Int))
        | 45 :: r => (parseDigits r).map (fun n => -(n : Int))
        | r => (parseDigits r).map (fun n => (n : Int))
  match mantVal, expVal with
  | some m, some e => some (sgnu.1 * m * (10 : Rat) ^ e)
  | _, _ => Option.none

/-- Models the Python 2 `float()` coercion as used by the codec. -/
def pyFloat : PyVal → Except PyErr Rat
  | .float q => .ok q
  | .int n => .ok (n : Rat)
  | .bool b => .ok (if b then 1 else 0)
  | .str s =>
      match parseFloatStr s with
      | some q => .ok q
      | Option.none => .error .ValueError
  | _ => .error .TypeError

/-- Keys of a dict, in insertion order. -/
def dictKeys (kvs : List (List Nat × PyVal)) : List (List Nat) := kvs.map Prod.fst

/-- Python `d[k]`: the value under a key, `KeyError` if absent. -/
def dictGet (kvs : List (List Nat × PyVal)) (k : List Nat) : Except PyErr PyVal :=
  match kvs.find? (fun p => p.1 == k) with
  | some p => .ok p.2
  | Option.none => .error .KeyError

/-- Python `d[k] = v` preserving insertion order (an existing key keeps its
position, as in a Python dict). -/
def dictSet (kvs : List (List Nat × PyVal)) (k : List Nat) (v : PyVal) :
    List (List Nat × PyVal) :=
  if kvs.any (fun p => p.1 == k) then kvs.map (fun p => if p.1 == k then (k, v) else p)
  else kvs ++ [(k, v)]

/-- Subscript access on an arbitrary value: only dicts are subscripted by
string in the codec; subscripting a non-dict raises `TypeError`. -/
def pyGetItem (v : PyVal) (k : List Nat) : Except PyErr PyVal :=
  match v with
  | .dict kvs => dictGet kvs k
  | _ => .error .TypeError

/-- Python `v.keys()`: only dicts have the attribute. -/
def pyKeys (v : PyVal) : Except PyErr (List (List Nat)) :=
  match v with
  | .dict kvs => .ok (dictKeys kvs)
  | _ => .error .AttributeError

/-- Python iteration `for x in v`: lists yield elements, strings yield
one-character strings, dicts yield their keys, other values raise
`TypeError`. -/
def pyIter (v : PyVal) : Except PyErr (List PyVal) :=
  match v with
  | .list xs => .ok xs
  | .str s => .ok (s.map (fun c => .str [c]))
  | .dict kvs => .ok (kvs.map (fun p => .str p.1))
  | _ => .error .TypeError

/-- Python `base64.b64decode(v)`: requires a string argument. -/
def pyB64decodeVal (v : PyVal) : Except PyErr (List Nat) :=
  match v with
  | .str s => b64decode s
  | _ => .error .TypeError

/-! ## JSON (model of Python 2 `json.loads` on the codec's payloads) -/

/-- JSON whitespace skipping. -/
def skipWs (s : List Nat) : List Nat :=
  s.dropWhile (fun c => c == 32 || c == 9 || c == 10 || c == 13)

/-- Value of a hexadecimal digit. -/
def hexVal (c : Nat) : Option Nat :=
  if 48 ≤ c ∧ c ≤ 57 then some (c - 48)
  else if 97 ≤ c ∧ c ≤ 102 then some (c - 87)
  else if 65 ≤ c ∧ c ≤ 70 then some (c - 55)
  else Option.none

/-- Parses the body of a JSON string (the opening quote already consumed)
up to and including the closing quote, handling the standard escapes;
returns the string's characters and the remaining input. -/
def parseStringBody : List Nat → Option (List Nat × List Nat)
  | [] => Option.none
  | 34 :: r => some ([], r)
  | 92 :: [] => Option.none
  | 92 :: e :: r =>
      if e = 34 then (parseStringBody r).map (fun q => (34 :: q.1, q.2))
      else if e = 92 then (parseStringBody r).map (fun q => (92 :: q.1, q.2))
      else if e = 47 then (parseStringBody r).map (fun q => (47 :: q.1, q.2))
      else if e = 98 then (parseStringBody r).map (fun q => (8 :: q.1, q.2))
      else if e = 102 then (parseStringBody r).map (fun q => (12 :: q.1, q.2))
      else if e = 110 then (parseStringBody r).map (fun q => (10 :: q.1, q.2))
      else if e = 114 then (parseStringBody r).map (fun q => (13 :: q.1, q.2))
      else if e = 116 then (parseStringBody r).map (fun q => (9 :: q.1, q.2))
      else if e = 117 then
        match r with
        | h1 :: h2 :: h3 :: h4 :: r2 =>
            match hexVal h1, hexVal h2, hexVal h3, hexVal h4 with
            | some a, some b, some c, some d =>
                (parseStringBody r2).map (fun q => ((((a * 16 + b) * 16 + c) * 16 + d) :: q.1, q.2))
            | _, _, _, _ => Option.none
        | _ => Option.none
      else Option.none
  | c :: r =>
      if c < 32 then Option.none
      else (parseStringBody r).map (fun q => (c :: q.1, q.2))

/-- Parses a JSON number (the tokenizer's regex: optional minus, integer
part without leading zeros, optional fraction, optional exponent; the
fraction and exponent are only consumed when well formed, as with a greedy
regex).  A number without fraction and exponent is a Python int, otherwise a
float. -/
def parseNum (s : List Nat) : Option (PyVal × List Nat) :=
  let negs : Bool × List Nat := match s with | 45 :: r => (true, r) | r => (false, r)
  let ds := negs.2.takeWhile isDigit
  let r1 := negs.2.dropWhile isDigit
  if ds.isEmpty then Option.none
  else if 1 < ds.length && ds.headD 0 == 48 then Option.none
  else
    let frac : Option (List Nat) × List Nat :=
      match r1 with
      | 46 :: rr =>
          let fs := rr.takeWhile isDigit
          if fs.isEmpty then (Option.none, r1) else (some fs, rr.dropWhile isDigit)
      | _ => (Option.none, r1)
    let ex : Option Int × List Nat :=
      match frac.2 with
      | c :: rr =>
          if c = 101 ∨ c = 69 then
            match rr with
            | 43 :: rr2 =>
                let es := rr2.takeWhile isDigit
                if es.isEmpty then (Option.none, frac.2)
                else (some ((digitsToNat es : Nat) : Int), rr2.dropWhile isDigit)
            | 45 :: rr2 =>
                let es := rr2.takeWhile isDigit
                if es.isEmpty then (Option.none, frac.2)
                else (some (-((digitsToNat es : Nat) : Int)), rr2.dropWhile isDigit)
            | rr2 =>
                let es := rr2.takeWhile isDigit
                if es.isEmpty then (Option.none, frac.2)
                else (some ((digitsToNat es : Nat) : Int), rr2.dropWhile isDigit)
          else (Option.none, frac.2)
      | [] => (Option.none, frac.2)
    match frac.1, ex.1 with
    | Option.none, Option.none =>
        some (.int (if negs.1 then -(digitsToNat ds : Int) else (digitsToNat ds : Int)), ex.2)
    | _, _ =>
        let sgn : Rat := if negs.1 then -1 else 1
        let mag : Rat := (digitsToNat ds : Rat) +
          (match frac.1 with
           | some fs => (digitsToNat fs : Rat) / ((10 : Rat) ^ fs.length)
           | Option.none => 0)
        let e : Int := match ex.1 with | some e => e | Option.none => 0
        some (.float (sgn * mag * (10 : Rat) ^ e), ex.2)

mutual

/-- JSON value parser.  `fuel` bounds the recursion; `jsonLoads` supplies
more fuel than any input can exhaust.  Returns the value and the remaining
input, or `Option.none` on malformed input. -/
def parseVal : Nat → List Nat → Option (PyVal × List Nat)
  | 0, _ => Option.none
  | fuel + 1, s =>
      match skipWs s with
      | [] => Option.none
      | c :: rest =>
          if c = 123 then
            match skipWs rest with
            | 125 :: r2 => some (.dict [], r2)
            | r2 => parseMembers fuel r2 []
          else if c = 91 then
            match skipWs rest with
            | 93 :: r2 => some (.list [], r2)
            | r2 => parseElems fuel r2 []
          else if c = 34 then
            match parseStringBody rest with
            | some p => some (.str p.1, p.2)
            | Option.none => Option.none
          else if c = 116 then
            match rest with
            | 114 :: 117 :: 101 :: r => some (.bool true, r)
            | _ => Option.none
          else if c = 102 then
            match rest with
            | 97 :: 108 :: 115 :: 101 :: r => some (.bool false, r)
            | _ => Option.none
          else if c = 110 then
            match rest with
            | 117 :: 108 :: 108 :: r => some (.none, r)
            | _ => Option.none
          else parseNum (c :: rest)

/-- Object member list parser, positioned at a key. -/
def parseMembers : Nat → List Nat → List (List Nat × PyVal) →
    Option (PyVal × List Nat)
  | 0, _, _ => Option.none
  | fuel + 1, s, acc =>
      match s with
      | 34 :: rest =>
          match parseStringBody rest with
          | some kp =>
              match skipWs kp.2 with
              | 58 :: r2 =>
                  match parseVal fuel r2 with
                  | some vp =>
                      match skipWs vp.2 with
                      | 44 :: r3 => parseMembers fuel (skipWs r3) (dictSet acc kp.1 vp.1)
                      | 125 :: r3 => some (.dict (dictSet acc kp.1 vp.1), r3)
                      | _ => Option.none
                  | Option.none => Option.none
              | _ => Option.none
          | Option.none => Option.none
      | _ => Option.none

/-- Array element list parser. -/
def parseElems : Nat → List Nat → List PyVal → Option (PyVal × List Nat)
  | 0, _, _ => Option.none
  | fuel + 1, s, acc =>
      match parseVal fuel s with
      | some vp =>
          match skipWs vp.2 with
          | 44 :: r2 => parseElems fuel r2 (acc ++ [vp.1])
          | 93 :: r2 => some (.list (acc ++ [vp.1]), r2)
          | _ => Option.none
      | Option.none => Option.none

end

/-- Models Python 2 `json.loads` on the codec's payload strings: parses one
JSON document with nothing but whitespace after it; every failure is a
`ValueError`. -/
def jsonLoads (s : List Nat) : Except PyErr PyVal :=
  match parseVal (2 * s.length + 2) s with
  | some p => if (skipWs p.2).isEmpty then .ok p.1 else .error .ValueError
  | Option.none => .error .ValueError

/-! ## JSON serialisation (model of `json.dumps` with separators `,` `:`) -/

/-- Lower-case hexadecimal digit character. -/
def hexDigitChar (n : Nat) : Nat := if n < 10 then 48 + n else 87 + n

/-- Escapes one character as `json.dumps` does (ensure_ascii): quote,
backslash and the named control escapes as two-character escapes, other
control and non-ASCII characters as `\uXXXX`. -/
def jsonEscapeChar (c : Nat) : List Nat :=
  if c = 34 then [92, 34]
  else if c = 92 then [92, 92]
  else if c = 10 then [92, 110]
  else if c = 13 then [92, 114]
  else if c = 9 then [92, 116]
  else if c = 8 then [92, 98]
  else if c = 12 then [92, 102]
  else if c < 32 || 126 < c then
    [92, 117, hexDigitChar (c / 4096 % 16), hexDigitChar (c / 256 % 16),
      hexDigitChar (c / 16 % 16), hexDigitChar (c % 16)]
  else [c]

/-- JSON string literal for a character list. -/
def jsonDumpStr (s : List Nat) : List Nat := 34 :: ((s.map jsonEscapeChar).flatten ++ [34])

/-- Decimal digit characters of a natural number. -/
def natToDec (n : Nat) : List Nat := (Nat.toDigits 10 n).map Char.toNat

/-- Decimal rendering of an integer. -/
def intToDec (n : Int) : List Nat :=
  if n < 0 then 45 :: natToDec n.natAbs else natToDec n.natAbs

/-- Decimal rendering of a float for JSON output.  For values whose
denominator divides a power of ten this is the exact decimal with at least
one fractional digit, as `json.dumps` prints such floats; Python's repr of
floats that are not exactly decimal differs (binary rounding), which no
claim depends on, and the final branch is a fallback rendering. -/
def ratToDec (q : Rat) : List Nat :=
  let sign : List Nat := if q < 0 then [45] else []
  match (List.range 18).find? (fun k => (q * (10 : Rat) ^ k).den == 1) with
  | some k =>
      let n := (q * (10 : Rat) ^ k).num.natAbs
      let ds := natToDec n
      if k = 0 then sign ++ ds ++ [46, 48]
      else if ds.length ≤ k then sign ++ [48, 46] ++ List.replicate (k - ds.length) 48 ++ ds
      else sign ++ ds.take (ds.length - k) ++ [46] ++ ds.drop (ds.length - k)
  | Option.none => sign ++ natToDec q.num.natAbs ++ [47] ++ natToDec q.den

/-- JSON rendering of a boolean. -/
def jsonDumpBool (b : Bool) : List Nat :=
  if b then [116, 114, 117, 101] else [102, 97, 108, 115, 101]

/-- Models `Txpk.encode`: a JSON object with single top-level key `txpk`
whose value holds the non-None fields in the fixed order imme, tmst, time,
freq, rfch, powe, modu, datr, codr, ipol, size, data, ncrc, serialised with
separators `(',', ':')`.  After `Txpk.__init__`, `size` is always an int
and hence always emitted. -/
def Txpk.encode (t : Txpk) : List Nat :=
  let items : List (List Nat × List Nat) :=
    (match t.imme with | some b => [(kImme, jsonDumpBool b)] | Option.none => []) ++
    (match t.tmst with | some n => [(kTmst, intToDec n)] | Option.none => []) ++
    (match t.time with | some s => [(kTime, jsonDumpStr s)] | Option.none => []) ++
    (match t.freq with | some q => [(kFreq, ratToDec q)] | Option.none => []) ++
    (match t.rfch with | some n => [(kRfch, intToDec n)] | Option.none => []) ++
    (match t.powe with | some n => [(kPowe, intToDec n)] | Option.none => []) ++
    (match t.modu with | some s => [(kModu, jsonDumpStr s)] | Option.none => []) ++
    (match t.datr with | some s => [(kDatr, jsonDumpStr s)] | Option.none => []) ++
    (match t.codr with | some s => [(kCodr, jsonDumpStr s)] | Option.none => []) ++
    (match t.ipol with | some b => [(kIpol, jsonDumpBool b)] | Option.none => []) ++
    [(kSize, intToDec t.size)] ++
    (match t.data with | some s => [(kData, jsonDumpStr s)] | Option.none => []) ++
    (match t.ncrc with | some b => [(kNcrc, jsonDumpBool b)] | Option.none => [])
  let inner := List.intercalate [44] (items.map (fun p => jsonDumpStr p.1 ++ [58] ++ p.2))
  [123] ++ jsonDumpStr kTxpk ++ [58, 123] ++ inner ++ [125, 125]

/-! ## Stat and Rxpk records -/

/-- The `stp['k'] if 'k' in keys else None` idiom for an uncoerced field. -/
def pyOptRaw (kvs : List (List Nat × PyVal)) (skeys : List (List Nat)) (k : List Nat) :
    Except PyErr (Option PyVal) :=
  if skeys.contains k then (dictGet kvs k).map some else pure Option.none

/-- The `float(stp['k']) if 'k' in keys else None` idiom. -/
def pyOptFloat (kvs : List (List Nat × PyVal)) (skeys : List (List Nat)) (k : List Nat) :
    Except PyErr (Option Rat) :=
  if skeys.contains k then do
    let q ← pyFloat (← dictGet kvs k)
    pure (some q)
  else pure Option.none

/-- The `int(stp['k']) if 'k' in keys else None` idiom. -/
def pyOptInt (kvs : List (List Nat × PyVal)) (skeys : List (List Nat)) (k : List Nat) :
    Except PyErr (Option Int) :=
  if skeys.contains k then do
    let n ← pyInt (← dictGet kvs k)
    pure (some n)
  else pure Option.none

/-- The Stat (gateway status) record.  `time` is copied through uncoerced
(the source assigns `stp['time']` directly), so it holds an arbitrary
value. -/
structure Stat where
  time : Option PyVal
  lati : Option Rat
  long : Option Rat
  alti : Option Int
  rxnb : Option Int
  rxok : Option Int
  rwfw : Option Int
  ackr : Option Int
  dwnb : Option Int
  txnb : Option Int

/-- Models `Stat.decode`: each of the ten known keys, when present, is
coerced (string passthrough for `time`, float for `lati`/`long`, int for
the rest); absent keys stay unset.  Coercion failures propagate as the
Python exceptions do.  Calling it on a non-dict raises `AttributeError`
(`stp.keys()`). -/
def Stat.decode : PyVal → Except PyErr Stat
  | .dict kvs => do
      let skeys := dictKeys kvs
      let time ← pyOptRaw kvs skeys kTime
      let lati ← pyOptFloat kvs skeys kLati
      let long ← pyOptFloat kvs skeys kLong
      let alti ← pyOptInt kvs skeys kAlti
      let rxnb ← pyOptInt kvs skeys kRxnb
      let rxok ← pyOptInt kvs skeys kRxok
      let rwfw ← pyOptInt kvs skeys kRwfw
      let ackr ← pyOptInt kvs skeys kAckr
      let dwnb ← pyOptInt kvs skeys kDwnb
      let txnb ← pyOptInt kvs skeys kTxnb
      pure { time := time, lati := lati, long := long, alti := alti, rxnb := rxnb,
             rxok := rxok, rwfw := rwfw, ackr := ackr, dwnb := dwnb, txnb := txnb }
  | _ => .error .AttributeError

/-- The Rxpk (received frame) record as produced by `Rxpk.decode`:
mandatory fields coerced, `modu`/`datr`/`codr` copied through uncoerced,
`data` base64-decoded to raw bytes, `time`/`size` optional. -/
structure Rxpk where
  tmst : Int
  freq : Rat
  chan : Int
  rfch : Int
  stat : Int
  modu : PyVal
  datr : PyVal
  codr : PyVal
  rssi : Int
  lsnr : Rat
  data : List Nat
  time : Option PyVal
  size : Option Int

/-- The mandatory Rxpk key list of the source. -/
def mandatoryRxpkKeys : List (List Nat) :=
  [kTmst, kFreq, kChan, kRfch, kStat, kModu, kDatr, kCodr, kRssi, kLsnr, kData]

/-- The presence test at the top of `Rxpk.decode`, literally translated:
`all(rkeys for k in mandatory)` — the generator yields the whole `rkeys`
object once per mandatory name, so `all` only tests the truthiness
(non-emptiness) of the key list, never membership of the individual
keys. -/
def rxpkMandatoryCheck (rkeys : List (List Nat)) : Bool :=
  mandatoryRxpkKeys.all (fun _ => !rkeys.isEmpty)

/-- Models `Rxpk.decode`.  The source's presence test is
`all(rkeys for k in mandatory)`: the generator yields the whole `rkeys`
object once per mandatory name, so the test only checks the truthiness
(non-emptiness) of the key list, never membership of the individual keys —
the embedding reproduces that behaviour literally.  A failing test returns
`Option.none` (the element is dropped by the caller); afterwards the
mandatory fields are accessed and coerced in source order, so a missing key
raises `KeyError` and a bad value raises `ValueError`/`TypeError`, all
uncaught. -/
def Rxpk.decode : PyVal → Except PyErr (Option Rxpk)
  | .dict kvs =>
      let rkeys := dictKeys kvs
      if !(rxpkMandatoryCheck rkeys) then .ok Option.none
      else do
        let tmst ← pyInt (← dictGet kvs kTmst)
        let freq ← pyFloat (← dictGet kvs kFreq)
        let chan ← pyInt (← dictGet kvs kChan)
        let rfch ← pyInt (← dictGet kvs kRfch)
        let stat ← pyInt (← dictGet kvs kStat)
        let modu ← dictGet kvs kModu
        let datr ← dictGet kvs kDatr
        let codr ← dictGet kvs kCodr
        let rssi ← pyInt (← dictGet kvs kRssi)
        let lsnr ← pyFloat (← dictGet kvs kLsnr)
        let data ← pyB64decodeVal (← dictGet kvs kData)
        let time ← pyOptRaw kvs rkeys kTime
        let size ← pyOptInt kvs rkeys kSize
        pure (some { tmst := tmst, freq := freq, chan := chan, rfch := rfch, stat := stat,
                     modu := modu, datr := datr, codr := codr, rssi := rssi, lsnr := lsnr,
                     data := data, time := time, size := size })
  | _ => .error .AttributeError

/-! ## The GatewayMessage record, decode and encode -/

/-- GWMP identifier PUSH_DATA. -/
def PUSH_DATA : Nat := 0
/-- GWMP identifier PUSH_ACK. -/
def PUSH_ACK : Nat := 1
/-- GWMP identifier PULL_DATA. -/
def PULL_DATA : Nat := 2
/-- GWMP identifier PULL_RESP. -/
def PULL_RESP : Nat := 3
/-- GWMP identifier PULL_ACK. -/
def PULL_ACK : Nat := 4
/-- GWMP identifier TX_ACK. -/
def TX_ACK : Nat := 5

/-- The gateway message record. -/
structure GatewayMessage where
  version : Nat
  token : Nat
  id : Option Nat
  gatewayEUI : Option Nat
  payload : List Nat
  ptype : Option (List Nat)
  remote : PyVal
  rxpk : Option (List Rxpk)
  txpk : Option Txpk
  stat : Option Stat

/-- Models `GatewayMessage.__init__`: `payload` starts empty, `rxpk` and
`stat` start unset. -/
def GatewayMessage.init (version token : Nat) (identifier : Option Nat)
    (gatewayEUI : Option Nat) (txpk : Option Txpk) (remote : PyVal)
    (ptype : Option (List Nat)) : GatewayMessage :=
  { version := version, token := token, id := identifier, gatewayEUI := gatewayEUI,
    payload := [], ptype := ptype, remote := remote,
    rxpk := Option.none, txpk := txpk, stat := Option.none }

/-- Models `struct.unpack('<BHB', data[:4])`: version byte, little-endian
16-bit token, identifier byte. -/
def headerUnpack (data : List Nat) : Nat × Nat × Nat :=
  (data.getD 0 0, data.getD 1 0 + 256 * data.getD 2 0, data.getD 3 0)

/-- Models `struct.unpack('<Q', data[4:12])`: little-endian 64-bit gateway
identity. -/
def euiUnpack (data : List Nat) : Nat :=
  data.getD 4 0 + 256 * data.getD 5 0 + 256 ^ 2 * data.getD 6 0 + 256 ^ 3 * data.getD 7 0 +
    256 ^ 4 * data.getD 8 0 + 256 ^ 5 * data.getD 9 0 + 256 ^ 6 * data.getD 10 0 +
    256 ^ 7 * data.getD 11 0

/-- The `for r in jdata['rxpk']` loop of `GatewayMessage.decode`: decode
each element, keep the non-None results, propagate exceptions. -/
def decodeRxpkList : List PyVal → List Rxpk → Except PyErr (List Rxpk)
  | [], acc => .ok acc
  | r :: rest, acc => do
      let rx ← Rxpk.decode r
      match rx with
      | some x => decodeRxpkList rest (acc ++ [x])
      | Option.none => decodeRxpkList rest acc

/-- Identity/payload extraction step of `GatewayMessage.decode`:
PUSH_DATA and PULL_DATA require 12 bytes and read the gateway identity,
PUSH_DATA and TX_ACK keep the remaining bytes as payload. -/
def gwReadBody (data : List Nat) (m : GatewayMessage) : Except PyErr GatewayMessage :=
  if m.id = some PUSH_DATA then
    if data.length < 12 then .error .DecodeError
    else pure { m with gatewayEUI := some (euiUnpack data), payload := data.drop 12 }
  else if m.id = some PULL_DATA then
    if data.length < 12 then .error .DecodeError
    else pure { m with gatewayEUI := some (euiUnpack data) }
  else if m.id = some TX_ACK then
    pure { m with payload := data.drop 4 }
  else pure m

/-- PUSH_DATA payload decoding step of `GatewayMessage.decode`: parse the
JSON payload (`json.loads` failures are caught and re-raised as
`DecodeError`), take the first top-level key as `ptype` and dispatch.  As
in the source, `Stat.decode` receives the whole root JSON object, and the
`is None` test after it can never fire.  For any identifier other than
PUSH_DATA this step returns the message unchanged. -/
def gwDecodePayload (m : GatewayMessage) : Except PyErr GatewayMessage :=
  if m.id = some PUSH_DATA then
    match jsonLoads m.payload with
    | .error _ => .error .DecodeError
    | .ok jdata => do
        let ks ← pyKeys jdata
        let ptype ← match ks with
          | [] => Except.error PyErr.IndexError
          | k :: _ => pure k
        let m := { m with ptype := some ptype }
        if m.ptype = some kRxpk then do
          let arr ← pyGetItem jdata kRxpk
          let elems ← pyIter arr
          let lst ← decodeRxpkList elems []
          if lst.isEmpty then Except.error PyErr.DecodeError
          else pure { m with rxpk := some lst }
        else if m.ptype = some kStat then do
          let s ← Stat.decode jdata
          let mstat := some s
          if mstat.isNone then Except.error PyErr.DecodeError
          else pure { m with stat := mstat }
        else Except.error PyErr.DecodeError
  else pure m

/-- Models `GatewayMessage.decode`.  Inputs shorter than 4 bytes fail with
`DecodeError`; the header is unpacked and the (version, identifier) pair
checked, failing with `UnsupportedMethod` outside the legal table; then the
body is extracted (`gwReadBody`) and a PUSH_DATA JSON payload is decoded
(`gwDecodePayload`). -/
def gwDecode (data : List Nat) (remote : PyVal) : Except PyErr GatewayMessage :=
  if data.length < 4 then .error .DecodeError
  else
    let version := (headerUnpack data).1
    let token := (headerUnpack data).2.1
    let identifer := (headerUnpack data).2.2
    let m := GatewayMessage.init version token (some identifer) Option.none Option.none
      remote Option.none
    if ¬(m.version = 1 ∨ m.version = 2)
        ∨ (m.version = 1 ∧ ¬(m.id = some PUSH_DATA ∨ m.id = some PULL_DATA))
        ∨ (m.version = 2 ∧ ¬(m.id = some PUSH_DATA ∨ m.id = some PULL_DATA
            ∨ m.id = some TX_ACK)) then
      .error .UnsupportedMethod
    else do
      let m ← gwReadBody data m
      gwDecodePayload m

/-- Models `struct.pack('<BHB', version, token, identifier)` including the
range checks `struct` performs. -/
def packBHB (v t i : Nat) : Except PyErr (List Nat) :=
  if v ≤ 255 ∧ t ≤ 65535 ∧ i ≤ 255 then .ok [v, t % 256, t / 256, i]
  else .error .StructError

/-- Models `struct.pack('<Q', e)`. -/
def packQ (e : Nat) : Except PyErr (List Nat) :=
  if e < 2 ^ 64 then
    .ok [e % 256, e / 256 % 256, e / 256 ^ 2 % 256, e / 256 ^ 3 % 256,
      e / 256 ^ 4 % 256, e / 256 ^ 5 % 256, e / 256 ^ 6 % 256, e / 256 ^ 7 % 256]
  else .error .StructError

/-- Models `GatewayMessage.encode`.  The result pairs the emitted bytes
with the state of the message object after the call, exposing the source's
in-place mutations: PULL_RESP overwrites `payload` with the Txpk JSON and,
when version is 1, overwrites `token` with 0.  `PULL_ACK` without a gateway
identity fails inside `struct.pack` and PULL_RESP without a `txpk` raises
`AttributeError` (`None.encode()`); on those error paths no post-state is
produced (the Python object may still have been partially mutated before
the exception, which no claim depends on).  Identifiers other than
PUSH_ACK, PULL_ACK and PULL_RESP fall through every branch and return the
initial empty string with nothing changed. -/
def gwEncode (m : GatewayMessage) : Except PyErr (List Nat × GatewayMessage) :=
  if m.id = some PUSH_ACK then do
    let d ← packBHB m.version m.token PUSH_ACK
    pure (d, m)
  else if m.id = some PULL_ACK then
    match m.gatewayEUI with
    | some e => do
        let d1 ← packBHB m.version m.token PULL_ACK
        let d2 ← packQ e
        pure (d1 ++ d2, m)
    | Option.none => .error .StructError
  else if m.id = some PULL_RESP then
    let token := if m.version = 1 then 0 else m.token
    match m.txpk with
    | some t => do
        let payload := Txpk.encode t
        let d ← packBHB m.version token PULL_RESP
        pure (d ++ payload, { m with token := token, payload := payload })
    | Option.none => .error .AttributeError
  else pure ([], m)


/-! ## Concrete inputs and auxiliary predicates used by the theorems -/

/-- Legal (version, identifier) pairs of the decode table. -/
def legalVersionId (v i : Nat) : Prop :=
  (v = 1 ∧ (i = PUSH_DATA ∨ i = PULL_DATA))
  ∨ (v = 2 ∧ (i = PUSH_DATA ∨ i = PULL_DATA ∨ i = TX_ACK))

/-- An all-default Txpk (Python `Txpk()`). -/
def emptyTxpk : Txpk :=
  Txpk.init Option.none Option.none Option.none Option.none Option.none Option.none
    Option.none Option.none Option.none Option.none Option.none Option.none Option.none

/-- The C1 scenario datagram: header bytes 01 34 12 00 (version 1, token
0x1234, identifier 0 PUSH_DATA), eight identity bytes, then the JSON text
of a stat object whose only field is the time string 2021-01-01T00:00:00Z. -/
def c1Datagram : List Nat :=
  [1, 52, 18, 0, 1, 2, 3, 4, 5, 6, 7, 8] ++ [123, 34, 115, 116, 97, 116, 34, 58, 123, 34, 116, 105, 109, 101, 34, 58, 34, 50, 48, 50, 49, 45, 48, 49, 45, 48, 49, 84, 48, 48, 58, 48, 48, 58, 48, 48, 90, 34, 125, 125]

/-- PUSH_DATA datagram (version 1) whose rxpk array holds one element with
only a freq key (every mandatory field but freq missing). -/
def c2Datagram : List Nat :=
  [1, 0, 0, 0, 1, 2, 3, 4, 5, 6, 7, 8] ++ [123, 34, 114, 120, 112, 107, 34, 58, 91, 123, 34, 102, 114, 101, 113, 34, 58, 56, 54, 56, 125, 93, 125]

/-- PUSH_DATA datagram (version 1) whose rxpk array holds two empty
elements, so that both are dropped at the presence check. -/
def c2EmptyElemsDatagram : List Nat :=
  [1, 0, 0, 0, 1, 2, 3, 4, 5, 6, 7, 8] ++ [123, 34, 114, 120, 112, 107, 34, 58, 91, 123, 125, 44, 123, 125, 93, 125]

/-- PUSH_DATA datagram whose single rxpk element carries every mandatory
key but a non-numeric tmst string (abc). -/
def c4Datagram : List Nat :=
  [1, 0, 0, 0, 1, 2, 3, 4, 5, 6, 7, 8] ++ [123, 34, 114, 120, 112, 107, 34, 58, 91, 123, 34, 116, 109, 115, 116, 34, 58, 34, 97, 98, 99, 34, 44, 34, 102, 114, 101, 113, 34, 58, 56, 54, 56, 44, 34, 99, 104, 97, 110, 34, 58, 50, 44, 34, 114, 102, 99, 104, 34, 58, 48, 44, 34, 115, 116, 97, 116, 34, 58, 49, 44, 34, 109, 111, 100, 117, 34, 58, 34, 76, 79, 82, 65, 34, 44, 34, 100, 97, 116, 114, 34, 58, 34, 83, 70, 55, 66, 87, 49, 50, 53, 34, 44, 34, 99, 111, 100, 114, 34, 58, 34, 52, 47, 54, 34, 44, 34, 114, 115, 115, 105, 34, 58, 45, 51, 53, 44, 34, 108, 115, 110, 114, 34, 58, 53, 44, 34, 100, 97, 116, 97, 34, 58, 34, 97, 71, 107, 61, 34, 125, 93, 125]

/-- PUSH_DATA datagram whose single rxpk element is fully populated except
that its data field (a single base64 character) is not valid base64. -/
def c4BadB64Datagram : List Nat :=
  [1, 0, 0, 0, 1, 2, 3, 4, 5, 6, 7, 8] ++ [123, 34, 114, 120, 112, 107, 34, 58, 91, 123, 34, 116, 109, 115, 116, 34, 58, 49, 44, 34, 102, 114, 101, 113, 34, 58, 56, 54, 56, 44, 34, 99, 104, 97, 110, 34, 58, 50, 44, 34, 114, 102, 99, 104, 34, 58, 48, 44, 34, 115, 116, 97, 116, 34, 58, 49, 44, 34, 109, 111, 100, 117, 34, 58, 34, 76, 79, 82, 65, 34, 44, 34, 100, 97, 116, 114, 34, 58, 34, 83, 70, 55, 66, 87, 49, 50, 53, 34, 44, 34, 99, 111, 100, 114, 34, 58, 34, 52, 47, 54, 34, 44, 34, 114, 115, 115, 105, 34, 58, 45, 51, 53, 44, 34, 108, 115, 110, 114, 34, 58, 53, 44, 34, 100, 97, 116, 97, 34, 58, 34, 97, 34, 125, 93, 125]

/-- A version-1 PUSH_ACK message as built for encoding (token 0x1234). -/
def pushAckMsg : GatewayMessage :=
  GatewayMessage.init 1 4660 (some PUSH_ACK) Option.none Option.none PyVal.none Option.none

/-- A version-1 PULL_RESP message with token 5 and a default Txpk. -/
def pullRespMsg : GatewayMessage :=
  GatewayMessage.init 1 5 (some PULL_RESP) Option.none (some emptyTxpk) PyVal.none Option.none

/-- A version-1 PUSH_DATA message (an identifier `encode` does not handle). -/
def pushDataMsg : GatewayMessage :=
  GatewayMessage.init 1 7 (some PUSH_DATA) Option.none Option.none PyVal.none Option.none

/-! ## Theorems -/

theorem b64val_b64char {n : Nat} (h : n < 64) : b64val (b64char n) = n := by
  unfold b64char b64val
  split_ifs <;> omega

theorem isB64Char_b64char {n : Nat} (h : n < 64) : isB64Char (b64char n) = true := by
  unfold b64char isB64Char
  split_ifs <;> simp <;> omega

theorem b64char_ne_pad {n : Nat} (h : n < 64) : b64char n ≠ 61 := by
  unfold b64char
  split_ifs <;> omega

theorem isB64Char_ne_pad {c : Nat} (h : isB64Char c = true) : c ≠ 61 := by
  unfold isB64Char at h
  simp only [Bool.or_eq_true, Bool.and_eq_true, decide_eq_true_eq, beq_iff_eq] at h
  omega

/-- Every byte string's base64 encoding decodes (at the quadruple level)
back to the original bytes. -/
theorem b64quads_b64encode : ∀ d : List Nat, (∀ x ∈ d, x < 256) →
    b64quads (b64encode d) = some d
  | [], _ => rfl
  | [a], h => by
      have ha : a < 256 := h a (by simp)
      have h1 : a / 4 < 64 := by omega
      have h2 : a % 4 * 16 < 64 := by omega
      simp only [b64encode, b64quads, b64char_ne_pad h1, b64char_ne_pad h2, or_self,
        if_false, if_true, b64val_b64char h1, b64val_b64char h2]
      congr 1
      have : (a % 4 * 16) / 16 = a % 4 := by omega
      rw [this]
      congr 1
      omega
  | [a, b], h => by
      have ha : a < 256 := h a (by simp)
      have hb : b < 256 := h b (by simp)
      have h1 : a / 4 < 64 := by omega
      have h2 : a % 4 * 16 + b / 16 < 64 := by omega
      have h3 : b % 16 * 4 < 64 := by omega
      simp only [b64encode, b64quads, b64char_ne_pad h1, b64char_ne_pad h2, b64char_ne_pad h3,
        or_self, if_false, if_true, b64val_b64char h1, b64val_b64char h2, b64val_b64char h3]
      congr 1
      have e1 : (a / 4) * 4 + (a % 4 * 16 + b / 16) / 16 = a := by omega
      have e2 : (a % 4 * 16 + b / 16) % 16 * 16 + (b % 16 * 4) / 4 = b := by omega
      rw [e1, e2]
  | a :: b :: c :: rest, h => by
      have ha : a < 256 := h a (by simp)
      have hb : b < 256 := h b (by simp)
      have hc : c < 256 := h c (by simp)
      have ih := b64quads_b64encode rest (fun x hx => h x (by simp [hx]))
      have h1 : a / 4 < 64 := by omega
      have h2 : a % 4 * 16 + b / 16 < 64 := by omega
      have h3 : b % 16 * 4 + c / 64 < 64 := by omega
      have h4 : c % 64 < 64 := by omega
      simp only [b64encode, b64quads, b64char_ne_pad h1, b64char_ne_pad h2, b64char_ne_pad h3,
        b64char_ne_pad h4, or_self, if_false, b64val_b64char h1, b64val_b64char h2,
        b64val_b64char h3, b64val_b64char h4, ih]
      congr 1
      have e1 : (a / 4) * 4 + (a % 4 * 16 + b / 16) / 16 = a := by omega
      have e2 : (a % 4 * 16 + b / 16) % 16 * 16 + (b % 16 * 4 + c / 64) / 4 = b := by omega
      have e3 : (b % 16 * 4 + c / 64) % 4 * 64 + c % 64 = c := by omega
      rw [e1, e2, e3]

/-- The characters emitted by `b64encode` are alphabet characters or pads. -/
theorem b64encode_chars : ∀ d : List Nat, (∀ x ∈ d, x < 256) →
    ∀ c ∈ b64encode d, isB64Char c = true ∨ c = 61
  | [], _ => by simp [b64encode]
  | [a], h => by
      have ha : a < 256 := h a (by simp)
      have h1 : a / 4 < 64 := by omega
      have h2 : a % 4 * 16 < 64 := by omega
      simp only [b64encode, List.mem_cons, List.not_mem_nil, or_false]
      rintro c (rfl | rfl | rfl | rfl)
      · exact Or.inl (isB64Char_b64char h1)
      · exact Or.inl (isB64Char_b64char h2)
      · exact Or.inr rfl
      · exact Or.inr rfl
  | [a, b], h => by
      have ha : a < 256 := h a (by simp)
      have hb : b < 256 := h b (by simp)
      have h1 : a / 4 < 64 := by omega
      have h2 : a % 4 * 16 + b / 16 < 64 := by omega
      have h3 : b % 16 * 4 < 64 := by omega
      simp only [b64encode, List.mem_cons, List.not_mem_nil, or_false]
      rintro c (rfl | rfl | rfl | rfl)
      · exact Or.inl (isB64Char_b64char h1)
      · exact Or.inl (isB64Char_b64char h2)
      · exact Or.inl (isB64Char_b64char h3)
      · exact Or.inr rfl
  | a :: b :: c :: rest, h => by
      have ha : a < 256 := h a (by simp)
      have hb : b < 256 := h b (by simp)
      have hc : c < 256 := h c (by simp)
      have ih := b64encode_chars rest (fun x hx => h x (by simp [hx]))
      have h1 : a / 4 < 64 := by omega
      have h2 : a % 4 * 16 + b / 16 < 64 := by omega
      have h3 : b % 16 * 4 + c / 64 < 64 := by omega
      have h4 : c % 64 < 64 := by omega
      simp only [b64encode, List.mem_cons]
      rintro x (rfl | rfl | rfl | rfl | hx)
      · exact Or.inl (isB64Char_b64char h1)
      · exact Or.inl (isB64Char_b64char h2)
      · exact Or.inl (isB64Char_b64char h3)
      · exact Or.inl (isB64Char_b64char h4)
      · exact ih x hx

/-- The length of a base64 encoding is a multiple of four. -/
theorem b64encode_length : ∀ d : List Nat, (b64encode d).length % 4 = 0
  | [] => rfl
  | [_] => by simp [b64encode]
  | [_, _] => by simp [b64encode]
  | _ :: _ :: _ :: rest => by
      have ih := b64encode_length rest
      simp only [b64encode, List.length_cons]
      omega

/-- Full `b64decode` / `b64encode` roundtrip. -/
theorem b64decode_b64encode (d : List Nat) (h : ∀ x ∈ d, x < 256) :
    b64decode (b64encode d) = .ok d := by
  have hfilter : (b64encode d).filter (fun c => isB64Char c || c == 61) = b64encode d := by
    apply List.filter_eq_self.mpr
    intro c hc
    rcases b64encode_chars d h c hc with h1 | h1
    · simp [h1]
    · simp [h1]
  have h4 := b64encode_length d
  have hq := b64quads_b64encode d h
  unfold b64decode
  simp [hfilter, h4, hq]

/-- Base64 encodings split into an alphabet-only prefix and zero, one, or two
trailing pad characters. -/
theorem b64encode_pad_shape : ∀ d : List Nat, (∀ x ∈ d, x < 256) →
    ∃ s k, b64encode d = s ++ List.replicate k 61 ∧ k ≤ 2 ∧ ∀ c ∈ s, isB64Char c = true
  | [], _ => ⟨[], 0, rfl, by omega, by simp⟩
  | [a], h => by
      have ha : a < 256 := h a (by simp)
      have h1 : a / 4 < 64 := by omega
      have h2 : a % 4 * 16 < 64 := by omega
      refine ⟨[b64char (a / 4), b64char (a % 4 * 16)], 2, rfl, by omega, ?_⟩
      intro c hc
      simp only [List.mem_cons, List.not_mem_nil, or_false] at hc
      rcases hc with rfl | rfl
      · exact isB64Char_b64char h1
      · exact isB64Char_b64char h2
  | [a, b], h => by
      have ha : a < 256 := h a (by simp)
      have hb : b < 256 := h b (by simp)
      have h1 : a / 4 < 64 := by omega
      have h2 : a % 4 * 16 + b / 16 < 64 := by omega
      have h3 : b % 16 * 4 < 64 := by omega
      refine ⟨[b64char (a / 4), b64char (a % 4 * 16 + b / 16), b64char (b % 16 * 4)], 1,
        rfl, by omega, ?_⟩
      intro c hc
      simp only [List.mem_cons, List.not_mem_nil, or_false] at hc
      rcases hc with rfl | rfl | rfl
      · exact isB64Char_b64char h1
      · exact isB64Char_b64char h2
      · exact isB64Char_b64char h3
  | a :: b :: c :: rest, h => by
      have ha : a < 256 := h a (by simp)
      have hb : b < 256 := h b (by simp)
      have hc : c < 256 := h c (by simp)
      have h1 : a / 4 < 64 := by omega
      have h2 : a % 4 * 16 + b / 16 < 64 := by omega
      have h3 : b % 16 * 4 + c / 64 < 64 := by omega
      have h4 : c % 64 < 64 := by omega
      obtain ⟨s, k, heq, hk, hs⟩ := b64encode_pad_shape rest (fun x hx => h x (by simp [hx]))
      refine ⟨b64char (a / 4) :: b64char (a % 4 * 16 + b / 16) ::
        b64char (b % 16 * 4 + c / 64) :: b64char (c % 64) :: s, k, ?_, hk, ?_⟩
      · simp [b64encode, heq]
      · intro x hx
        simp only [List.mem_cons] at hx
        rcases hx with rfl | rfl | rfl | rfl | hx
        · exact isB64Char_b64char h1
        · exact isB64Char_b64char h2
        · exact isB64Char_b64char h3
        · exact isB64Char_b64char h4
        · exact hs x hx

theorem stripB64Pad_of_shape (s : List Nat) (k : Nat) (hk : k ≤ 2)
    (hs : ∀ c ∈ s, isB64Char c = true) :
    stripB64Pad (s ++ List.replicate k 61) = s := by
  have h61 : (61 : Nat) ∉ s := by
    intro hmem
    have := hs 61 hmem
    simp [isB64Char] at this
  interval_cases k
  · -- no padding: neither test can match, as `=` does not occur in `s`
    have hs0 : s ++ List.replicate 0 61 = s := by simp
    rw [hs0]
    have hc2 : pyTailSlice 2 s ≠ [61, 61] := by
      intro hc
      apply h61
      have h2 : (61 : Nat) ∈ pyTailSlice 2 s := by simp [hc]
      exact List.mem_of_mem_drop h2
    have hc1 : pyTailSlice 1 s ≠ [61] := by
      intro hc
      apply h61
      have h2 : (61 : Nat) ∈ pyTailSlice 1 s := by simp [hc]
      exact List.mem_of_mem_drop h2
    simp [stripB64Pad, hc2, hc1]
  · -- one pad character
    rcases List.eq_nil_or_concat s with rfl | ⟨s2, c, rfl⟩
    · simp [stripB64Pad, pyTailSlice, pyDropTail]
    · have hc : isB64Char c = true := hs c (by simp [List.concat_eq_append])
      have hcne : c ≠ 61 := isB64Char_ne_pad hc
      have hre : s2.concat c ++ List.replicate 1 61 = s2 ++ [c, 61] := by
        simp [List.concat_eq_append]
      rw [hre]
      have hlen : (s2 ++ [c, 61]).length = s2.length + 2 := by simp
      have hc2 : pyTailSlice 2 (s2 ++ [c, 61]) = [c, 61] := by
        unfold pyTailSlice
        rw [hlen]
        have : s2.length + 2 - 2 = s2.length := by omega
        rw [this, List.drop_left]
      have hc2ne : pyTailSlice 2 (s2 ++ [c, 61]) ≠ [61, 61] := by
        rw [hc2]
        intro hcontra
        exact hcne (by injection hcontra)
      have hsplit : s2 ++ [c, 61] = (s2 ++ [c]) ++ [61] := by simp
      have hc1 : pyTailSlice 1 (s2 ++ [c, 61]) = [61] := by
        unfold pyTailSlice
        rw [hlen]
        have h2 : s2.length + 2 - 1 = (s2 ++ [c]).length := by simp
        rw [h2, hsplit, List.drop_left]
      have hd1 : pyDropTail 1 (s2 ++ [c, 61]) = s2.concat c := by
        unfold pyDropTail
        rw [hlen]
        have h2 : s2.length + 2 - 1 = (s2 ++ [c]).length := by simp
        rw [h2, hsplit, List.take_left]
        simp [List.concat_eq_append]
      simp [stripB64Pad, hc2ne, hc1, hd1]
  · -- two pad characters
    have hre : s ++ List.replicate 2 61 = s ++ [61, 61] := by simp [List.replicate]
    rw [hre]
    have hlen : (s ++ [61, 61]).length = s.length + 2 := by simp
    have hc2 : pyTailSlice 2 (s ++ [61, 61]) = [61, 61] := by
      unfold pyTailSlice
      rw [hlen]
      have : s.length + 2 - 2 = s.length := by omega
      rw [this, List.drop_left]
    have hd2 : pyDropTail 2 (s ++ [61, 61]) = s := by
      unfold pyDropTail
      rw [hlen]
      have : s.length + 2 - 2 = s.length := by omega
      rw [this, List.take_left]
    simp [stripB64Pad, hc2, hd2]

/-- C5: constructing a Txpk with raw byte data `d` sets `size` to the exact
byte length of `d` and `data` to the base64 text of `d` with its trailing
pad characters (0, 1 or 2 of them) stripped; re-adding the stripped padding
and base64-decoding yields `d` again; with no data supplied, `size` is 0. -/
theorem txpk_init_data_roundtrip (d : List Nat) (hd : ∀ x ∈ d, x < 256)
    (imme : Option Bool) (tmst : Option Int) (time : Option (List Nat))
    (freq : Option Rat) (rfch powe : Option Int) (modu datr codr : Option (List Nat))
    (ipol : Option Bool) (size : Option Int) (ncrc : Option Bool) :
    ((Txpk.init imme tmst time freq rfch powe modu datr codr ipol size (some d) ncrc).size
        = (d.length : Int))
    ∧ (∃ s k, (Txpk.init imme tmst time freq rfch powe modu datr codr ipol size
          (some d) ncrc).data = some s
        ∧ k ≤ 2
        ∧ s ++ List.replicate k 61 = b64encode d
        ∧ b64decode (s ++ List.replicate k 61) = .ok d)
    ∧ (Txpk.init imme tmst time freq rfch powe modu datr codr ipol size
        Option.none ncrc).size = 0 := by
  obtain ⟨s, k, heq, hk, hs⟩ := b64encode_pad_shape d hd
  refine ⟨rfl, ⟨s, k, ?_, hk, heq.symm, ?_⟩, rfl⟩
  · show some (stripB64Pad (b64encode d)) = some s
    rw [heq, stripB64Pad_of_shape s k hk hs]
  · rw [← heq]
    exact b64decode_b64encode d hd

/-- Witness for C5 at the two-byte payload `hi` (bytes 104, 105). -/
theorem txpk_init_data_roundtrip_witness :
    (∀ x ∈ ([104, 105] : List Nat), x < 256)
    ∧ (((Txpk.init .none .none .none .none .none .none .none .none .none .none .none
          (some [104, 105]) .none).size = (([104, 105] : List Nat).length : Int))
      ∧ (∃ s k, (Txpk.init .none .none .none .none .none .none .none .none .none .none .none
            (some [104, 105]) .none).data = some s
          ∧ k ≤ 2
          ∧ s ++ List.replicate k 61 = b64encode [104, 105]
          ∧ b64decode (s ++ List.replicate k 61) = .ok [104, 105])
      ∧ (Txpk.init .none .none .none .none .none .none .none .none .none .none .none
          Option.none .none).size = 0) :=
  ⟨by decide, txpk_init_data_roundtrip [104, 105] (by decide)
    .none .none .none .none .none .none .none .none .none .none .none .none⟩


/-! ### Generic facts about `Except` chains -/

theorem bind_ne {α β : Type} {e : PyErr} {x : Except PyErr α} {f : α → Except PyErr β}
    (hx : x ≠ .error e) (hf : ∀ a, f a ≠ .error e) : (x >>= f) ≠ .error e := by
  cases x with
  | error e2 =>
      intro hc
      simp only [Bind.bind, Except.bind, Except.error.injEq] at hc
      exact hx (by rw [hc])
  | ok a => simpa only [Bind.bind, Except.bind] using hf a

theorem pure_ne {α : Type} {e : PyErr} (a : α) : (pure a : Except PyErr α) ≠ .error e := by
  simp [pure, Except.pure]

theorem map_ne {α β : Type} {e : PyErr} (f : α → β) (x : Except PyErr α)
    (hx : x ≠ .error e) : x.map f ≠ .error e := by
  cases x with
  | error e2 =>
      simp only [Except.map, ne_eq, Except.error.injEq] at hx ⊢
      exact hx
  | ok a => simp [Except.map]

theorem ifte_ne {α : Type} {e : PyErr} (c : Prop) [Decidable c] (x y : Except PyErr α)
    (hx : x ≠ .error e) (hy : y ≠ .error e) : (if c then x else y) ≠ .error e := by
  split <;> assumption

theorem bind_ne_ok {α β : Type} {b : β} {x : Except PyErr α} {f : α → Except PyErr β}
    (hf : ∀ a, f a ≠ .ok b) : (x >>= f) ≠ .ok b := by
  cases x with
  | error e2 => simp [Bind.bind, Except.bind]
  | ok a => simpa only [Bind.bind, Except.bind] using hf a

/-! ### The decode pipeline never raises `UnsupportedMethod` past the header check -/

theorem dictGet_ne_um (kvs : List (List Nat × PyVal)) (k : List Nat) :
    dictGet kvs k ≠ .error .UnsupportedMethod := by
  unfold dictGet
  split <;> simp

theorem pyInt_ne_um (v : PyVal) : pyInt v ≠ .error .UnsupportedMethod := by
  cases v <;> simp [pyInt] <;> split <;> simp

theorem pyFloat_ne_um (v : PyVal) : pyFloat v ≠ .error .UnsupportedMethod := by
  cases v <;> simp [pyFloat] <;> split <;> simp

theorem pyKeys_ne_um (v : PyVal) : pyKeys v ≠ .error .UnsupportedMethod := by
  cases v <;> simp [pyKeys]

theorem pyGetItem_ne_um (v : PyVal) (k : List Nat) :
    pyGetItem v k ≠ .error .UnsupportedMethod := by
  cases v <;> simp [pyGetItem] <;> try exact dictGet_ne_um _ _

theorem pyIter_ne_um (v : PyVal) : pyIter v ≠ .error .UnsupportedMethod := by
  cases v <;> simp [pyIter]

theorem b64decode_ne_um (s : List Nat) : b64decode s ≠ .error .UnsupportedMethod := by
  have h : ∀ t : List Nat,
      (if t.length % 4 ≠ 0 then (Except.error PyErr.TypeError : Except PyErr (List Nat))
       else
         match b64quads t with
         | some bs => .ok bs
         | Option.none => .error .TypeError) ≠ .error .UnsupportedMethod := by
    intro t
    split
    · simp
    · split <;> simp
  exact h _

theorem pyB64decodeVal_ne_um (v : PyVal) :
    pyB64decodeVal v ≠ .error .UnsupportedMethod := by
  cases v <;> simp [pyB64decodeVal] <;> try exact b64decode_ne_um _

theorem pyOptRaw_ne_um (kvs : List (List Nat × PyVal)) (skeys : List (List Nat))
    (k : List Nat) : pyOptRaw kvs skeys k ≠ .error .UnsupportedMethod := by
  unfold pyOptRaw
  exact ifte_ne _ _ _ (map_ne _ _ (dictGet_ne_um _ _)) (pure_ne _)

theorem pyOptFloat_ne_um (kvs : List (List Nat × PyVal)) (skeys : List (List Nat))
    (k : List Nat) : pyOptFloat kvs skeys k ≠ .error .UnsupportedMethod := by
  unfold pyOptFloat
  exact ifte_ne _ _ _
    (bind_ne (dictGet_ne_um _ _) (fun v => bind_ne (pyFloat_ne_um v) (fun q => pure_ne _)))
    (pure_ne _)

theorem pyOptInt_ne_um (kvs : List (List Nat × PyVal)) (skeys : List (List Nat))
    (k : List Nat) : pyOptInt kvs skeys k ≠ .error .UnsupportedMethod := by
  unfold pyOptInt
  exact ifte_ne _ _ _
    (bind_ne (dictGet_ne_um _ _) (fun v => bind_ne (pyInt_ne_um v) (fun q => pure_ne _)))
    (pure_ne _)

theorem stat_decode_ne_um (stp : PyVal) : Stat.decode stp ≠ .error .UnsupportedMethod := by
  cases stp
  case dict kvs =>
    simp only [Stat.decode]
    refine bind_ne (pyOptRaw_ne_um _ _ _) fun time => ?_
    refine bind_ne (pyOptFloat_ne_um _ _ _) fun lati => ?_
    refine bind_ne (pyOptFloat_ne_um _ _ _) fun long => ?_
    refine bind_ne (pyOptInt_ne_um _ _ _) fun alti => ?_
    refine bind_ne (pyOptInt_ne_um _ _ _) fun rxnb => ?_
    refine bind_ne (pyOptInt_ne_um _ _ _) fun rxok => ?_
    refine bind_ne (pyOptInt_ne_um _ _ _) fun rwfw => ?_
    refine bind_ne (pyOptInt_ne_um _ _ _) fun ackr => ?_
    refine bind_ne (pyOptInt_ne_um _ _ _) fun dwnb => ?_
    refine bind_ne (pyOptInt_ne_um _ _ _) fun txnb => ?_
    exact pure_ne _
  all_goals simp [Stat.decode]

theorem rxpk_decode_ne_um (rxp : PyVal) : Rxpk.decode rxp ≠ .error .UnsupportedMethod := by
  cases rxp
  case dict kvs =>
    simp only [Rxpk.decode]
    split
    · simp
    refine bind_ne (dictGet_ne_um _ _) fun v1 => ?_
    refine bind_ne (pyInt_ne_um _) fun tmst => ?_
    refine bind_ne (dictGet_ne_um _ _) fun v2 => ?_
    refine bind_ne (pyFloat_ne_um _) fun freq => ?_
    refine bind_ne (dictGet_ne_um _ _) fun v3 => ?_
    refine bind_ne (pyInt_ne_um _) fun chan => ?_
    refine bind_ne (dictGet_ne_um _ _) fun v4 => ?_
    refine bind_ne (pyInt_ne_um _) fun rfch => ?_
    refine bind_ne (dictGet_ne_um _ _) fun v5 => ?_
    refine bind_ne (pyInt_ne_um _) fun stat => ?_
    refine bind_ne (dictGet_ne_um _ _) fun modu => ?_
    refine bind_ne (dictGet_ne_um _ _) fun datr => ?_
    refine bind_ne (dictGet_ne_um _ _) fun codr => ?_
    refine bind_ne (dictGet_ne_um _ _) fun v6 => ?_
    refine bind_ne (pyInt_ne_um _) fun rssi => ?_
    refine bind_ne (dictGet_ne_um _ _) fun v7 => ?_
    refine bind_ne (pyFloat_ne_um _) fun lsnr => ?_
    refine bind_ne (dictGet_ne_um _ _) fun v8 => ?_
    refine bind_ne (pyB64decodeVal_ne_um _) fun data => ?_
    refine bind_ne (pyOptRaw_ne_um _ _ _) fun time => ?_
    refine bind_ne (pyOptInt_ne_um _ _ _) fun size => ?_
    exact pure_ne _
  all_goals simp [Rxpk.decode]

theorem decodeRxpkList_ne_um : ∀ (elems : List PyVal) (acc : List Rxpk),
    decodeRxpkList elems acc ≠ .error .UnsupportedMethod
  | [], acc => by simp [decodeRxpkList]
  | r :: rest, acc => by
      simp only [decodeRxpkList]
      refine bind_ne (rxpk_decode_ne_um r) fun rx => ?_
      cases rx with
      | some x => exact decodeRxpkList_ne_um rest (acc ++ [x])
      | none => exact decodeRxpkList_ne_um rest acc

theorem gwReadBody_ne_um (data : List Nat) (m : GatewayMessage) :
    gwReadBody data m ≠ .error .UnsupportedMethod := by
  unfold gwReadBody
  split_ifs <;> first | exact pure_ne _ | simp

theorem gwDecodePayload_ne_um (m : GatewayMessage) :
    gwDecodePayload m ≠ .error .UnsupportedMethod := by
  unfold gwDecodePayload
  split
  · split
    · simp
    · refine bind_ne (pyKeys_ne_um _) fun ks => ?_
      cases ks with
      | nil =>
          intro hc
          simp [Bind.bind, Except.bind] at hc
      | cons k ks2 =>
          refine bind_ne (pure_ne _) fun ptype => ?_
          simp only []
          split
          · refine bind_ne (pyGetItem_ne_um _ _) fun arr => ?_
            refine bind_ne (pyIter_ne_um _) fun elems => ?_
            refine bind_ne (decodeRxpkList_ne_um _ _) fun lst => ?_
            split <;> simp [pure, Except.pure]
          · split
            · refine bind_ne (stat_decode_ne_um _) fun s => ?_
              split <;> simp [pure, Except.pure]
            · simp
  · exact pure_ne _

/-! ### Claim theorems -/

set_option maxRecDepth 16384 in
/-- C1 (evaluation at the claim's input): decoding the C1 scenario datagram
succeeds, but the resulting Stat has EVERY field unset, `time` included —
contrary to the claim, because the source passes the whole root JSON object
(whose only key is `stat`) to `Stat.decode`, so the lookup of `time` (and
of every other Stat key) misses. -/
theorem c1_stat_time_also_unset :
    (gwDecode c1Datagram PyVal.none).toOption.isSome = true
    ∧ ((gwDecode c1Datagram PyVal.none).toOption.bind GatewayMessage.stat).map
        (fun s => s.time.isNone && s.lati.isNone && s.long.isNone && s.alti.isNone
          && s.rxnb.isNone && s.rxok.isNone && s.rwfw.isNone && s.ackr.isNone
          && s.dwnb.isNone && s.txnb.isNone) = some true :=
  ⟨rfl, rfl⟩

set_option maxRecDepth 16384 in
/-- C2 (evaluation at the failing input): an rxpk element that has at least
one key but is missing mandatory fields is NOT dropped — the decode of the
enclosing datagram raises `KeyError` from the first missing field access,
because the presence check never fires for a non-empty dict.  Elements that
are empty dicts ARE dropped, and when all elements are dropped the decode
does fail with `DecodeError`, as the second conjunct shows. -/
theorem c2_missing_field_raises_keyerror :
    gwDecode c2Datagram PyVal.none = .error .KeyError
    ∧ gwDecode c2EmptyElemsDatagram PyVal.none = .error .DecodeError :=
  ⟨rfl, rfl⟩

set_option maxRecDepth 16384 in
/-- C4 (evaluation at the failing inputs): a present-but-non-coercible
mandatory field (tmst = "abc") makes the decode raise the uncaught
`ValueError` from `int()`, not `DecodeError`; invalid base64 in `data`
raises the uncaught `TypeError` from `base64.b64decode`, not
`DecodeError`. -/
theorem c4_coercion_failure_not_decodeerror :
    gwDecode c4Datagram PyVal.none = .error .ValueError
    ∧ gwDecode c4BadB64Datagram PyVal.none = .error .TypeError :=
  ⟨rfl, rfl⟩

/-- C6 counterexample: an empty rxpk element dict (which certainly misses
every mandatory field) IS rejected at the mandatory-field check — the check
evaluates the truthiness of the key list, which is falsy for an empty dict
— so `Rxpk.decode` returns the dropped marker right there, contradicting
the claim's "for every rxpk element dict missing a mandatory field". -/
theorem c6_empty_dict_rejected_at_check :
    rxpkMandatoryCheck (dictKeys ([] : List (List Nat × PyVal))) = false
    ∧ Rxpk.decode (PyVal.dict []) = .ok Option.none :=
  ⟨rfl, rfl⟩

/-- C6 amended: for every rxpk element dict with at least one key, the
mandatory-field presence check does not reject it (it passes whatever
mandatory fields are missing), and `Rxpk.decode` never returns the dropped
marker for such a dict — rejection can only arise later, as an exception
from the key accesses / type coercions on a missing field. -/
theorem rxpk_check_passes_nonempty (kvs : List (List Nat × PyVal)) (h : kvs ≠ []) :
    rxpkMandatoryCheck (dictKeys kvs) = true
    ∧ Rxpk.decode (PyVal.dict kvs) ≠ .ok Option.none := by
  have hk : (dictKeys kvs).isEmpty = false := by
    cases kvs with
    | nil => exact absurd rfl h
    | cons a l => simp [dictKeys]
  have hcheck : rxpkMandatoryCheck (dictKeys kvs) = true := by
    simp [rxpkMandatoryCheck, hk]
  refine ⟨hcheck, ?_⟩
  simp only [Rxpk.decode, hcheck, Bool.not_true, Bool.false_eq_true, if_false]
  refine bind_ne_ok fun v1 => ?_
  refine bind_ne_ok fun tmst => ?_
  refine bind_ne_ok fun v2 => ?_
  refine bind_ne_ok fun freq => ?_
  refine bind_ne_ok fun v3 => ?_
  refine bind_ne_ok fun chan => ?_
  refine bind_ne_ok fun v4 => ?_
  refine bind_ne_ok fun rfch => ?_
  refine bind_ne_ok fun v5 => ?_
  refine bind_ne_ok fun stat => ?_
  refine bind_ne_ok fun modu => ?_
  refine bind_ne_ok fun datr => ?_
  refine bind_ne_ok fun codr => ?_
  refine bind_ne_ok fun v6 => ?_
  refine bind_ne_ok fun rssi => ?_
  refine bind_ne_ok fun v7 => ?_
  refine bind_ne_ok fun lsnr => ?_
  refine bind_ne_ok fun v8 => ?_
  refine bind_ne_ok fun data => ?_
  refine bind_ne_ok fun time => ?_
  refine bind_ne_ok fun size => ?_
  simp [pure, Except.pure]

/-- Witness for the amended C6 at the one-key dict whose only key is freq. -/
theorem rxpk_check_passes_nonempty_witness :
    rxpkMandatoryCheck (dictKeys [(kFreq, PyVal.int 868)]) = true
    ∧ Rxpk.decode (PyVal.dict [(kFreq, PyVal.int 868)]) ≠ .ok Option.none :=
  rxpk_check_passes_nonempty [(kFreq, PyVal.int 868)] (by simp)

/-- C10: for every message whose identifier is not PUSH_ACK, PULL_ACK or
PULL_RESP (a `None` identifier included), `encode` silently returns the
empty byte string and changes nothing — it raises no error and emits no
header. -/
theorem gwEncode_unencodable_returns_empty (m : GatewayMessage)
    (h1 : m.id ≠ some PUSH_ACK) (h2 : m.id ≠ some PULL_ACK)
    (h3 : m.id ≠ some PULL_RESP) :
    gwEncode m = .ok ([], m) := by
  unfold gwEncode
  rw [if_neg h1, if_neg h2, if_neg h3]
  rfl

/-- Witness for C10 at a version-1 PUSH_DATA message. -/
theorem gwEncode_unencodable_returns_empty_witness :
    gwEncode pushDataMsg = .ok ([], pushDataMsg) :=
  gwEncode_unencodable_returns_empty pushDataMsg (by decide) (by decide) (by decide)

/-- C9: any input shorter than 4 bytes fails with `DecodeError`; and any
input of 4 to 11 bytes whose header carries a valid version with identifier
PUSH_DATA or PULL_DATA also fails with `DecodeError` (the 12-byte minimum
for identity-bearing kinds). -/
theorem gwDecode_short_inputs_decodeerror (data : List Nat) (remote : PyVal) :
    (data.length < 4 → gwDecode data remote = .error .DecodeError)
    ∧ (4 ≤ data.length → data.length < 12 →
        ((headerUnpack data).1 = 1 ∨ (headerUnpack data).1 = 2) →
        ((headerUnpack data).2.2 = PUSH_DATA ∨ (headerUnpack data).2.2 = PULL_DATA) →
        gwDecode data remote = .error .DecodeError) := by
  constructor
  · intro h
    unfold gwDecode
    rw [if_pos h]
  · intro h4 h12 hv hid
    have hlt : ¬ data.length < 4 := by omega
    unfold gwDecode
    simp only [GatewayMessage.init, if_neg hlt]
    rw [if_neg ?hc]
    case hc =>
      simp only [PUSH_DATA, PULL_DATA, TX_ACK, Option.some.injEq] at hid ⊢
      omega
    rcases hid with hid | hid
    · simp [gwReadBody, hid, h12, PUSH_DATA, PULL_DATA, TX_ACK, Bind.bind, Except.bind]
    · simp [gwReadBody, hid, h12, PUSH_DATA, PULL_DATA, TX_ACK, Bind.bind, Except.bind]

/-- Witness for C9: a 1-byte input and a 5-byte valid PULL_DATA header. -/
theorem gwDecode_short_inputs_decodeerror_witness :
    gwDecode [9] PyVal.none = .error .DecodeError
    ∧ gwDecode [1, 0, 0, 2, 5] PyVal.none = .error .DecodeError :=
  ⟨(gwDecode_short_inputs_decodeerror [9] PyVal.none).1 (by decide),
   (gwDecode_short_inputs_decodeerror [1, 0, 0, 2, 5] PyVal.none).2 (by decide) (by decide)
     (by decide) (by decide)⟩

/-- With at least 4 bytes, an illegal (version, identifier) pair makes the
decode fail with `UnsupportedMethod`. -/
theorem gwDecode_um_of_not_legal (data : List Nat) (remote : PyVal)
    (h4 : 4 ≤ data.length)
    (hl : ¬ legalVersionId (headerUnpack data).1 (headerUnpack data).2.2) :
    gwDecode data remote = .error .UnsupportedMethod := by
  have hlt : ¬ data.length < 4 := by omega
  unfold gwDecode
  simp only [GatewayMessage.init, if_neg hlt]
  rw [if_pos ?hc]
  case hc =>
    simp only [legalVersionId, PUSH_DATA, PULL_DATA, TX_ACK, Option.some.injEq] at hl ⊢
    omega

/-- With at least 4 bytes and a legal (version, identifier) pair, the
decode never fails with `UnsupportedMethod` (it may fail with other
errors, or succeed). -/
theorem gwDecode_ne_um_of_legal (data : List Nat) (remote : PyVal)
    (h4 : 4 ≤ data.length)
    (hl : legalVersionId (headerUnpack data).1 (headerUnpack data).2.2) :
    gwDecode data remote ≠ .error .UnsupportedMethod := by
  have hlt : ¬ data.length < 4 := by omega
  unfold gwDecode
  simp only [GatewayMessage.init, if_neg hlt]
  rw [if_neg ?hc]
  case hc =>
    simp only [legalVersionId, PUSH_DATA, PULL_DATA, TX_ACK, Option.some.injEq] at hl ⊢
    omega
  exact bind_ne (gwReadBody_ne_um _ _) fun m => gwDecodePayload_ne_um m

/-- C8: for every input of at least 4 bytes, the decode raises
`UnsupportedMethod` exactly when the (version, identifier) pair read from
the header is outside the legal table (version 1 admits PUSH_DATA and
PULL_DATA, version 2 additionally TX_ACK, other versions admit nothing). -/
theorem gwDecode_unsupported_iff (data : List Nat) (remote : PyVal)
    (h4 : 4 ≤ data.length) :
    gwDecode data remote = .error .UnsupportedMethod
      ↔ ¬ legalVersionId (headerUnpack data).1 (headerUnpack data).2.2 := by
  by_cases hl : legalVersionId (headerUnpack data).1 (headerUnpack data).2.2
  · exact iff_of_false (gwDecode_ne_um_of_legal data remote h4 hl) (not_not_intro hl)
  · exact iff_of_true (gwDecode_um_of_not_legal data remote h4 hl) hl

/-- Witness for C8 at the 4-byte header with version 3 (illegal) — and via
`mpr` also a concrete derivation of the `UnsupportedMethod` result. -/
theorem gwDecode_unsupported_iff_witness :
    gwDecode [3, 0, 0, 0] PyVal.none = .error .UnsupportedMethod
    ∧ (gwDecode [3, 0, 0, 0] PyVal.none = .error .UnsupportedMethod
        ↔ ¬ legalVersionId (headerUnpack [3, 0, 0, 0]).1 (headerUnpack [3, 0, 0, 0]).2.2) :=
  ⟨(gwDecode_unsupported_iff [3, 0, 0, 0] PyVal.none (by decide)).mpr
      (by simp [legalVersionId, headerUnpack, PUSH_DATA, PULL_DATA, TX_ACK]),
   gwDecode_unsupported_iff [3, 0, 0, 0] PyVal.none (by decide)⟩

/-- C7 counterexample: encoding a version-1 PULL_RESP message stored with
token 5 mutates the message — afterwards its token is 0 and its payload
holds the Txpk JSON text, so `encode` does not leave every field at its
construction-time value. -/
theorem c7_pullresp_encode_mutates :
    pullRespMsg.token = 5
    ∧ (gwEncode pullRespMsg).map (fun p => p.2.token) = .ok 0
    ∧ (gwEncode pullRespMsg).map (fun p => p.2.payload) = .ok (Txpk.encode emptyTxpk) :=
  ⟨rfl, rfl, rfl⟩

/-- C7 amended: a successful `encode` leaves every field unchanged UNLESS
the identifier is PULL_RESP, in which case exactly two fields change:
`payload` becomes the Txpk JSON text and, when the version is 1, `token`
becomes 0 (otherwise `token` also keeps its value). -/
theorem gwEncode_mutation (m : GatewayMessage) (d : List Nat) (m2 : GatewayMessage)
    (h : gwEncode m = .ok (d, m2)) :
    (m.id ≠ some PULL_RESP → m2 = m)
    ∧ (m.id = some PULL_RESP →
        ∃ t, m.txpk = some t
          ∧ m2 = { m with token := if m.version = 1 then 0 else m.token,
                          payload := Txpk.encode t }) := by
  unfold gwEncode at h
  by_cases h1 : m.id = some PUSH_ACK
  · rw [if_pos h1] at h
    cases hp : packBHB m.version m.token PUSH_ACK with
    | error e1 =>
        rw [hp] at h
        simp [Bind.bind, Except.bind] at h
    | ok dd =>
        rw [hp] at h
        simp only [Bind.bind, Except.bind, pure, Except.pure, Except.ok.injEq,
          Prod.mk.injEq] at h
        refine ⟨fun _ => h.2.symm, fun hc => ?_⟩
        rw [hc] at h1
        simp [PUSH_ACK, PULL_RESP] at h1
  · rw [if_neg h1] at h
    by_cases h2 : m.id = some PULL_ACK
    · rw [if_pos h2] at h
      cases hg : m.gatewayEUI with
      | none =>
          rw [hg] at h
          simp at h
      | some e =>
          rw [hg] at h
          simp only [] at h
          cases hp : packBHB m.version m.token PULL_ACK with
          | error e1 =>
              rw [hp] at h
              simp [Bind.bind, Except.bind] at h
          | ok d1 =>
              rw [hp] at h
              cases hq : packQ e with
              | error e2 =>
                  rw [hq] at h
                  simp [Bind.bind, Except.bind] at h
              | ok d2 =>
                  rw [hq] at h
                  simp only [Bind.bind, Except.bind, pure, Except.pure, Except.ok.injEq,
                    Prod.mk.injEq] at h
                  refine ⟨fun _ => h.2.symm, fun hc => ?_⟩
                  rw [hc] at h2
                  simp [PULL_ACK, PULL_RESP] at h2
    · rw [if_neg h2] at h
      by_cases h3 : m.id = some PULL_RESP
      · rw [if_pos h3] at h
        cases ht : m.txpk with
        | none =>
            rw [ht] at h
            simp at h
        | some t =>
            rw [ht] at h
            simp only [] at h
            by_cases hv : m.version = 1
            · rw [if_pos hv] at h ⊢
              cases hp : packBHB m.version 0 PULL_RESP with
              | error e1 =>
                  rw [hp] at h
                  simp [Bind.bind, Except.bind] at h
              | ok dd =>
                  rw [hp] at h
                  simp only [Bind.bind, Except.bind, pure, Except.pure, Except.ok.injEq,
                    Prod.mk.injEq] at h
                  exact ⟨fun hn => absurd h3 hn, fun _ => ⟨t, rfl, h.2.symm⟩⟩
            · rw [if_neg hv] at h ⊢
              cases hp : packBHB m.version m.token PULL_RESP with
              | error e1 =>
                  rw [hp] at h
                  simp [Bind.bind, Except.bind] at h
              | ok dd =>
                  rw [hp] at h
                  simp only [Bind.bind, Except.bind, pure, Except.pure, Except.ok.injEq,
                    Prod.mk.injEq] at h
                  exact ⟨fun hn => absurd h3 hn, fun _ => ⟨t, rfl, h.2.symm⟩⟩
      · rw [if_neg h3] at h
        simp only [pure, Except.pure, Except.ok.injEq, Prod.mk.injEq] at h
        exact ⟨fun _ => h.2.symm, fun hc => absurd hc h3⟩

/-- Witness for the amended C7 at a version-1 PUSH_ACK message. -/
theorem gwEncode_mutation_witness :
    (pushAckMsg.id ≠ some PULL_RESP → pushAckMsg = pushAckMsg)
    ∧ (pushAckMsg.id = some PULL_RESP →
        ∃ t, pushAckMsg.txpk = some t
          ∧ pushAckMsg = { pushAckMsg with
              token := if pushAckMsg.version = 1 then 0 else pushAckMsg.token,
              payload := Txpk.encode t }) :=
  gwEncode_mutation pushAckMsg [1, 52, 18, 1] pushAckMsg rfl

/-- C3 counterexample: encoding a version-1 PUSH_ACK message with token
0x1234 yields the header bytes 01 34 12 01, but decoding those bytes raises
`UnsupportedMethod` — decode(encode(...)) does not reproduce the header for
an encodable identifier, because none of the three encodable identifiers is
decodable. -/
theorem c3_pushack_decode_of_encode_unsupported :
    gwEncode pushAckMsg = .ok ([1, 52, 18, 1], pushAckMsg)
    ∧ gwDecode [1, 52, 18, 1] PyVal.none = .error .UnsupportedMethod :=
  ⟨rfl, rfl⟩

/-- C3 amended: for every version in {1,2}, every 16-bit token and each of
the three encodable identifiers (PUSH_ACK, PULL_ACK, PULL_RESP; with a
gateway identity supplied for PULL_ACK, a Txpk for PULL_RESP), the encode
succeeds and the 4-byte header of the produced bytes carries the version,
the token and the identifier exactly — except PULL_RESP at version 1,
whose emitted token is 0 — but decoding the produced bytes always raises
`UnsupportedMethod`: the encodable identifiers are outside the decode
table, so the claimed decode∘encode round trip holds for none of them. -/
theorem encode_header_exact_decode_unsupported
    (v t i e : Nat) (tx : Txpk) (r r2 : PyVal)
    (hv : v = 1 ∨ v = 2) (ht : t ≤ 65535)
    (hi : i = PUSH_ACK ∨ i = PULL_ACK ∨ i = PULL_RESP) (he : e < 2 ^ 64) :
    ∃ d m2,
      gwEncode (GatewayMessage.init v t (some i) (some e) (some tx) r Option.none)
        = .ok (d, m2)
      ∧ headerUnpack d = (v, if i = PULL_RESP ∧ v = 1 then 0 else t, i)
      ∧ gwDecode d r2 = .error .UnsupportedMethod := by
  have hv255 : v ≤ 255 := by rcases hv with rfl | rfl <;> omega
  have htok : ∀ x : Nat, x % 256 + 256 * (x / 256) = x := fun x => by omega
  rcases hi with rfl | rfl | rfl
  · -- PUSH_ACK
    have hpack : packBHB v t PUSH_ACK = .ok [v, t % 256, t / 256, PUSH_ACK] := by
      unfold packBHB
      rw [if_pos ⟨hv255, ht, by norm_num [PUSH_ACK]⟩]
    refine ⟨[v, t % 256, t / 256, PUSH_ACK],
      GatewayMessage.init v t (some PUSH_ACK) (some e) (some tx) r Option.none, ?_, ?_, ?_⟩
    · unfold gwEncode
      simp only [GatewayMessage.init]
      rw [if_pos trivial, hpack]
      simp [Bind.bind, Except.bind, pure, Except.pure]
    · show (v, t % 256 + 256 * (t / 256), PUSH_ACK)
        = (v, if PUSH_ACK = PULL_RESP ∧ v = 1 then 0 else t, PUSH_ACK)
      rw [htok t]
      simp [PUSH_ACK, PULL_RESP]
    · apply gwDecode_um_of_not_legal
      · simp
      · show ¬ legalVersionId v PUSH_ACK
        simp [legalVersionId, PUSH_ACK, PUSH_DATA, PULL_DATA, TX_ACK]
  · -- PULL_ACK
    have hpack : packBHB v t PULL_ACK = .ok [v, t % 256, t / 256, PULL_ACK] := by
      unfold packBHB
      rw [if_pos ⟨hv255, ht, by norm_num [PULL_ACK]⟩]
    have hq : packQ e = .ok [e % 256, e / 256 % 256, e / 256 ^ 2 % 256, e / 256 ^ 3 % 256,
        e / 256 ^ 4 % 256, e / 256 ^ 5 % 256, e / 256 ^ 6 % 256, e / 256 ^ 7 % 256] := by
      unfold packQ
      rw [if_pos he]
    refine ⟨[v, t % 256, t / 256, PULL_ACK] ++ [e % 256, e / 256 % 256, e / 256 ^ 2 % 256,
        e / 256 ^ 3 % 256, e / 256 ^ 4 % 256, e / 256 ^ 5 % 256, e / 256 ^ 6 % 256,
        e / 256 ^ 7 % 256],
      GatewayMessage.init v t (some PULL_ACK) (some e) (some tx) r Option.none, ?_, ?_, ?_⟩
    · unfold gwEncode
      simp only [GatewayMessage.init]
      rw [if_neg (by simp [PUSH_ACK, PULL_ACK]), if_pos trivial]
      rw [hpack, hq]
      simp [Bind.bind, Except.bind, pure, Except.pure]
    · show (v, t % 256 + 256 * (t / 256), PULL_ACK)
        = (v, if PULL_ACK = PULL_RESP ∧ v = 1 then 0 else t, PULL_ACK)
      rw [htok t]
      simp [PULL_ACK, PULL_RESP]
    · apply gwDecode_um_of_not_legal
      · simp
      · show ¬ legalVersionId v PULL_ACK
        simp [legalVersionId, PULL_ACK, PUSH_DATA, PULL_DATA, TX_ACK]
  · -- PULL_RESP
    have htE : (if v = 1 then 0 else t) ≤ 65535 := by
      split <;> omega
    have hpack : packBHB v (if v = 1 then 0 else t) PULL_RESP
        = .ok [v, (if v = 1 then 0 else t) % 256, (if v = 1 then 0 else t) / 256,
            PULL_RESP] := by
      unfold packBHB
      rw [if_pos ⟨hv255, htE, by norm_num [PULL_RESP]⟩]
    refine ⟨[v, (if v = 1 then 0 else t) % 256, (if v = 1 then 0 else t) / 256, PULL_RESP]
        ++ Txpk.encode tx,
      { version := v, token := if v = 1 then 0 else t, id := some PULL_RESP,
        gatewayEUI := some e, payload := Txpk.encode tx, ptype := Option.none, remote := r,
        rxpk := Option.none, txpk := some tx, stat := Option.none }, ?_, ?_, ?_⟩
    · unfold gwEncode
      simp only [GatewayMessage.init]
      rw [if_neg (by simp [PUSH_ACK, PULL_RESP]), if_neg (by simp [PULL_ACK, PULL_RESP]),
        if_pos trivial]
      rw [hpack]
      simp [Bind.bind, Except.bind, pure, Except.pure]
    · show (v, (if v = 1 then 0 else t) % 256 + 256 * ((if v = 1 then 0 else t) / 256),
          PULL_RESP)
        = (v, if PULL_RESP = PULL_RESP ∧ v = 1 then 0 else t, PULL_RESP)
      rw [htok (if v = 1 then 0 else t)]
      simp [PULL_RESP]
    · apply gwDecode_um_of_not_legal
      · simp
      · show ¬ legalVersionId v PULL_RESP
        simp [legalVersionId, PULL_RESP, PUSH_DATA, PULL_DATA, TX_ACK]

/-- Witness for the amended C3 at version 1, token 0x1234, PULL_ACK,
gateway identity 99. -/
theorem encode_header_exact_decode_unsupported_witness :
    ∃ d m2,
      gwEncode (GatewayMessage.init 1 4660 (some PULL_ACK) (some 99) (some emptyTxpk)
        PyVal.none Option.none) = .ok (d, m2)
      ∧ headerUnpack d = (1, if PULL_ACK = PULL_RESP ∧ 1 = 1 then 0 else 4660, PULL_ACK)
      ∧ gwDecode d PyVal.none = .error .UnsupportedMethod :=
  encode_header_exact_decode_unsupported 1 4660 PULL_ACK 99 emptyTxpk PyVal.none PyVal.none
    (by decide) (by decide) (by decide) (by decide)
